import Mathlib

/-!
Verification of the univox repository (Pipecat STT/VAD glue layer).

Shallow embedding of:
  * `DeepgramProvider` (src/univox/providers/deepgram.py): the constructor's
    settings merge, the connection lifecycle (`start` / `stop` / `_connect` /
    `_disconnect` / `_reconnect`), `send_audio`, `finalize_utterance`,
    `set_language` / `set_model`, and the `_on_message` event dispatcher.
  * `CobraVADAnalyzer.voice_confidence` (src/univox/vad/cobra.py).
  * `UnivoxSTTService.process_frame` (src/univox/service.py).
  * `create_vad` (src/univox/examples/basic_vad_pipecat.py).

External SDK behaviour (whether the Deepgram websocket `start` succeeds, what
the Cobra probability model returns, whether optional modules import) is passed
in as explicit parameters; the side effects the code performs on the SDK and on
the callback sink are recorded as explicit action traces.
-/

namespace Univox

/-- The value stored under the language key of a settings dict: the code may
hold either a `Language` enum member or a plain string; `__init__` normalizes
an enum to its `.value` string. -/
inductive LangValue where
  | enum (tag : String)
  | str (tag : String)
deriving DecidableEq

/-- Underlying string of a language value, mirroring `language.value if
isinstance(language, Language) else language` in `set_language`. -/
def LangValue.tag : LangValue → String
  | LangValue.enum t => t
  | LangValue.str t => t

/-- The merged settings dict built by `DeepgramProvider.__init__`. The default
`LiveOptions` populates exactly these keys (its other fields are `None` and
dropped by `to_dict`); `sample_rate` is absent until `start` stores it. -/
structure Settings where
  encoding : String
  language : LangValue
  model : String
  channels : Nat
  interim_results : Bool
  smart_format : Bool
  punctuate : Bool
  profanity_filter : Bool
  vad_events : Bool
  sample_rate : Option Nat
deriving DecidableEq

/-- Caller-supplied `LiveOptions` as seen through `to_dict()`: a field is in
the dict exactly when it is `some`; absent fields do not overwrite defaults
under `dict.update`. -/
structure LiveOptions where
  encoding : Option String := none
  language : Option LangValue := none
  model : Option String := none
  channels : Option Nat := none
  interim_results : Option Bool := none
  smart_format : Option Bool := none
  punctuate : Option Bool := none
  profanity_filter : Option Bool := none
  vad_events : Option Bool := none
  sample_rate : Option Nat := none
deriving DecidableEq

/-- The `default_options` literal in `DeepgramProvider.__init__` (deepgram.py
lines 46-56). -/
def default_options : Settings :=
  { encoding := "linear16"
    language := LangValue.enum "en"
    model := "nova-3-general"
    channels := 1
    interim_results := true
    smart_format := true
    punctuate := true
    profanity_filter := true
    vad_events := false
    sample_rate := none }

/-- The merge in `__init__` (deepgram.py lines 58-64): start from the default
dict; when `live_options` is supplied, `dict.update` with its present keys,
then replace a literal "None" model string with the default model. -/
def mergeSettings (defaults : Settings) (live : Option LiveOptions) : Settings :=
  match live with
  | none => defaults
  | some lo =>
    let default_model := defaults.model
    let merged : Settings :=
      { encoding := lo.encoding.getD defaults.encoding
        language := lo.language.getD defaults.language
        model := lo.model.getD defaults.model
        channels := lo.channels.getD defaults.channels
        interim_results := lo.interim_results.getD defaults.interim_results
        smart_format := lo.smart_format.getD defaults.smart_format
        punctuate := lo.punctuate.getD defaults.punctuate
        profanity_filter := lo.profanity_filter.getD defaults.profanity_filter
        vad_events := lo.vad_events.getD defaults.vad_events
        sample_rate := lo.sample_rate <|> defaults.sample_rate }
    if merged.model = "None" then { merged with model := default_model } else merged

/-- Language normalization in `__init__` (deepgram.py lines 67-68): a
`Language` enum in the merged dict is replaced by its `.value` string. -/
def normalizeLanguage (s : Settings) : Settings :=
  match s.language with
  | LangValue.enum t => { s with language := LangValue.str t }
  | LangValue.str _ => s

/-- The settings mapping `self._settings` produced by
`DeepgramProvider.__init__` for a caller-supplied `live_options`. -/
def initSettings (live : Option LiveOptions) : Settings :=
  normalizeLanguage (mergeSettings default_options live)

theorem normalizeLanguage_vad_events (s : Settings) :
    (normalizeLanguage s).vad_events = s.vad_events := by
  unfold normalizeLanguage
  cases h : s.language <;> simp

theorem normalizeLanguage_interim_results (s : Settings) :
    (normalizeLanguage s).interim_results = s.interim_results := by
  unfold normalizeLanguage
  cases h : s.language <;> simp

theorem normalizeLanguage_model (s : Settings) :
    (normalizeLanguage s).model = s.model := by
  unfold normalizeLanguage
  cases h : s.language <;> simp

/-- Claim C1: for every caller-supplied live-options mapping, the settings
produced by the constructor's merge of caller options over defaults have
provider-side VAD events disabled (`vad_events = false`) and interim results
enabled (`interim_results = true`) whenever the caller-supplied options omit
those flags (including when no options are supplied at all). -/
theorem deepgram_defaults_survive_merge (live : Option LiveOptions)
    (hv : live.bind LiveOptions.vad_events = none)
    (hi : live.bind LiveOptions.interim_results = none) :
    (initSettings live).vad_events = false ∧
      (initSettings live).interim_results = true := by
  unfold initSettings
  rw [normalizeLanguage_vad_events, normalizeLanguage_interim_results]
  cases live with
  | none => simp [mergeSettings, default_options]
  | some lo =>
    simp only [Option.some_bind] at hv hi
    unfold mergeSettings
    refine ⟨?_, ?_⟩ <;>
      · dsimp only
        split <;> simp [hv, hi, default_options]

/-- Witness for C1 at the empty caller options. -/
theorem deepgram_defaults_survive_merge_witness :
    (some ({} : LiveOptions)).bind LiveOptions.vad_events = none ∧
      (some ({} : LiveOptions)).bind LiveOptions.interim_results = none ∧
      ((initSettings (some {})).vad_events = false ∧
        (initSettings (some {})).interim_results = true) :=
  ⟨rfl, rfl, deepgram_defaults_survive_merge (some {}) rfl rfl⟩

/-- Claim C10: in the constructor's settings merge, if the caller-supplied
options yield the literal string "None" as the model value, the merged
settings use the default model "nova-3-general" instead of the string
"None" (deepgram.py lines 62-64). -/
theorem deepgram_model_none_string_uses_default (lo : LiveOptions)
    (h : lo.model = some "None") :
    (initSettings (some lo)).model = "nova-3-general" := by
  unfold initSettings
  rw [normalizeLanguage_model]
  unfold mergeSettings
  simp [h, default_options]

/-- Witness for C10 at options whose model is the string "None". -/
theorem deepgram_model_none_string_uses_default_witness :
    ({ model := some "None" } : LiveOptions).model = some "None" ∧
      (initSettings (some { model := some "None" })).model = "nova-3-general" :=
  ⟨rfl, deepgram_model_none_string_uses_default { model := some "None" } rfl⟩

/-- A Deepgram vendor transcript alternative: `.transcript` text and the
`.languages` list carried by `LiveResultResponse.channel.alternatives[i]`. -/
structure Alternative where
  transcript : String
  languages : List String
deriving DecidableEq

/-- The `.channel` part of a vendor transcript event. -/
structure Channel where
  alternatives : List Alternative
deriving DecidableEq

/-- A vendor transcript event as consumed by `_on_message`. -/
structure LiveResultResponse where
  channel : Channel
  is_final : Bool
deriving DecidableEq

/-- The `TranscriptEvent` dataclass of src/univox/provider.py; the opaque
`provider_payload` is the raw vendor result. -/
structure TranscriptEvent where
  text : String
  is_final : Bool
  language : Option String
  provider_payload : LiveResultResponse
deriving DecidableEq

/-- The websocket connection handle held in `self._connection`; `is_connected`
is the flag `send_audio` and `_disconnect` consult. -/
structure Conn where
  is_connected : Bool
deriving DecidableEq

namespace DeepgramProvider

/-- One observable side effect of a provider method: an SDK call on the
connection handle, or an invocation of the registered callback sink. -/
inductive Action where
  | sdkStart (options : Settings)
  | sdkFinish
  | sdkSend (audio : List Nat)
  | sdkFinalize
  | onError (msg : String)
  | onInterim (evt : TranscriptEvent)
  | onFinal (evt : TranscriptEvent)
deriving DecidableEq

/-- True exactly on connection-open attempts (`connection.start`). -/
def Action.isStart : Action → Bool
  | Action.sdkStart _ => true
  | _ => false

/-- True exactly on connection teardown calls (`connection.finish`). -/
def Action.isFinish : Action → Bool
  | Action.sdkFinish => true
  | _ => false

/-- Mutable state of a `DeepgramProvider` instance: the settings dict, the
optional connection handle, whether a callback sink is registered, and the
stored sample rate. -/
structure State where
  settings : Settings
  connection : Option Conn
  callbacks : Bool
  sample_rate : Nat
deriving DecidableEq

/-- Whether the provider holds an active (connected) connection, the condition
`self._connection is not None and self._connection.is_connected`. -/
def connectionActive (s : State) : Bool :=
  match s.connection with
  | some c => c.is_connected
  | none => false

/-- `_connect` (deepgram.py lines 121-141): create a fresh handle, attempt
`connection.start(options=self._settings)`; the parameter `started` is the
SDK's reported outcome. On failure, report through `on_error` when callbacks
are registered; never reset the handle and never raise. -/
def connect (started : Bool) (s : State) : State × List Action :=
  ({ s with connection := some { is_connected := started } },
    Action.sdkStart s.settings ::
      (if started then []
       else if s.callbacks then
         [Action.onError "Deepgram connection failed. Check API key and network."]
       else []))

/-- `_disconnect` (deepgram.py lines 143-147): call `connection.finish()` only
when a connected handle exists, then drop the handle. -/
def disconnect (s : State) : State × List Action :=
  ({ s with connection := none },
    match s.connection with
    | some c => if c.is_connected then [Action.sdkFinish] else []
    | none => [])

/-- `_reconnect` (deepgram.py lines 149-151): `_disconnect` then `_connect`. -/
def reconnect (started : Bool) (s : State) : State × List Action :=
  ((connect started (disconnect s).1).1,
    (disconnect s).2 ++ (connect started (disconnect s).1).2)

/-- `start` (deepgram.py lines 90-93): store the sample rate into the settings
dict, then `_connect`. -/
def start (started : Bool) (sample_rate : Nat) (s : State) : State × List Action :=
  connect started
    { s with sample_rate := sample_rate
             settings := { s.settings with sample_rate := some sample_rate } }

/-- `send_audio` (deepgram.py lines 101-104): forward to `connection.send`
only when a connected handle exists; otherwise return without any action. -/
def send_audio (s : State) (audio : List Nat) : State × List Action :=
  if connectionActive s then (s, [Action.sdkSend audio]) else (s, [])

/-- `finalize_utterance` (deepgram.py lines 106-109): no-op when
`self._connection is None`, otherwise call `connection.finalize()` — note the
code checks only for `None`, not for `is_connected`. -/
def finalize_utterance (s : State) : State × List Action :=
  match s.connection with
  | none => (s, [])
  | some _ => (s, [Action.sdkFinalize])

/-- The settings update performed by `set_language` (deepgram.py line 112). -/
def updateLanguage (s : State) (language : LangValue) : State :=
  { s with settings := { s.settings with language := LangValue.str language.tag } }

/-- The settings update performed by `set_model` (deepgram.py line 116). -/
def updateModel (s : State) (model : String) : State :=
  { s with settings := { s.settings with model := model } }

/-- `set_language` (deepgram.py lines 111-113): update the settings dict, then
`_reconnect`, with no check that the value changed. -/
def set_language (started : Bool) (language : LangValue) (s : State) :
    State × List Action :=
  reconnect started (updateLanguage s language)

/-- `set_model` (deepgram.py lines 115-117): update the settings dict, then
`_reconnect`, with no check that the value changed. -/
def set_model (started : Bool) (model : String) (s : State) : State × List Action :=
  reconnect started (updateModel s model)

/-- `stop` (deepgram.py lines 95-96). -/
def stop (s : State) : State × List Action :=
  disconnect s

/-- `cancel` (deepgram.py lines 98-99). -/
def cancel (s : State) : State × List Action :=
  disconnect s

/-- `set_callbacks` (deepgram.py lines 87-88): register the callback sink. -/
def set_callbacks (s : State) : State :=
  { s with callbacks := true }

/-- The state built by `DeepgramProvider.__init__`: merged settings, no
connection, no callbacks, sample rate 0. -/
def initialState (live : Option LiveOptions) : State :=
  { settings := initSettings live
    connection := none
    callbacks := false
    sample_rate := 0 }

/-- The `TranscriptEvent` built by `_on_message` (deepgram.py lines 168-183):
text from the first alternative, the vendor finality flag, the language parsed
from the first entry of the alternative's languages list by the `Language`
constructor (`parse` yields `none` when that constructor raises), and the raw
result as opaque payload. -/
def eventOf (parse : String → Option String) (result : LiveResultResponse)
    (alt : Alternative) : TranscriptEvent :=
  { text := alt.transcript
    is_final := result.is_final
    language :=
      match alt.languages with
      | [] => none
      | l :: _ => parse l
    provider_payload := result }

/-- `_on_message` (deepgram.py lines 160-187): with no callback sink nothing
happens; an event with zero alternatives is dropped; an empty transcript is
dropped; otherwise one `TranscriptEvent` goes to `on_final` or `on_interim`
according to `is_final`. -/
def on_message (parse : String → Option String) (s : State)
    (result : LiveResultResponse) : List Action :=
  if s.callbacks then
    match result.channel.alternatives with
    | [] => []
    | alt :: _ =>
      if alt.transcript = "" then []
      else if result.is_final then [Action.onFinal (eventOf parse result alt)]
      else [Action.onInterim (eventOf parse result alt)]
  else []

theorem reconnect_trace (started : Bool) (s : State) :
    (reconnect started s).2.countP Action.isStart = 1 ∧
      (reconnect started s).2.countP Action.isFinish =
        (if connectionActive s then 1 else 0) := by
  unfold reconnect connect disconnect connectionActive
  cases h : s.connection with
  | none =>
    cases started <;> cases hcb : s.callbacks <;>
      simp [h, hcb, List.countP_cons, Action.isStart, Action.isFinish]
  | some c =>
    cases hc : c.is_connected <;> cases started <;> cases hcb : s.callbacks <;>
      simp [h, hc, hcb, List.countP_cons, Action.isStart, Action.isFinish]

/-- Claim C2: for every provider state (connected or not) and every language
or model value — including a value equal to the current one — `set_language`
and `set_model` update the settings mapping and then perform exactly one
disconnect followed by exactly one reconnect: the action trace is exactly the
`_disconnect` trace of the updated state followed by the `_connect` trace,
with exactly one connection-open attempt and a `connection.finish` exactly
when a connection was active. -/
theorem set_language_set_model_reconnect (started : Bool) (language : LangValue)
    (model : String) (s : State) :
    ((set_language started language s).1.settings.language =
        LangValue.str language.tag ∧
      (set_language started language s).2 =
        (disconnect (updateLanguage s language)).2 ++
          (connect started (disconnect (updateLanguage s language)).1).2 ∧
      (set_language started language s).2.countP Action.isStart = 1 ∧
      (set_language started language s).2.countP Action.isFinish =
        (if connectionActive s then 1 else 0)) ∧
    ((set_model started model s).1.settings.model = model ∧
      (set_model started model s).2 =
        (disconnect (updateModel s model)).2 ++
          (connect started (disconnect (updateModel s model)).1).2 ∧
      (set_model started model s).2.countP Action.isStart = 1 ∧
      (set_model started model s).2.countP Action.isFinish =
        (if connectionActive s then 1 else 0)) := by
  have hl := reconnect_trace started (updateLanguage s language)
  have hm := reconnect_trace started (updateModel s model)
  have hca : connectionActive (updateLanguage s language) = connectionActive s := rfl
  have hcb : connectionActive (updateModel s model) = connectionActive s := rfl
  refine ⟨⟨rfl, rfl, ?_, ?_⟩, ⟨rfl, rfl, ?_, ?_⟩⟩
  · exact hl.1
  · rw [show (set_language started language s).2 =
        (reconnect started (updateLanguage s language)).2 from rfl, hl.2, hca]
  · exact hm.1
  · rw [show (set_model started model s).2 =
        (reconnect started (updateModel s model)).2 from rfl, hm.2, hcb]

/-- Claim C3: for every inbound vendor transcript event processed while a
callback sink is registered, an event with zero alternatives or with an empty
first transcript produces no callback invocation at all; otherwise exactly one
`TranscriptEvent` built from the event is delivered, to `on_final` when the
finality flag is true and to `on_interim` when it is false. -/
theorem on_message_routing (parse : String → Option String) (s : State)
    (result : LiveResultResponse) (hcb : s.callbacks = true) :
    ((result.channel.alternatives = [] ∨
        (∃ alt rest, result.channel.alternatives = alt :: rest ∧
          alt.transcript = "")) →
      on_message parse s result = []) ∧
    (∀ alt rest, result.channel.alternatives = alt :: rest →
      alt.transcript ≠ "" →
      on_message parse s result =
        (if result.is_final then [Action.onFinal (eventOf parse result alt)]
         else [Action.onInterim (eventOf parse result alt)])) := by
  unfold on_message
  constructor
  · rintro (h | ⟨alt, rest, h, ht⟩)
    · simp [hcb, h]
    · simp [hcb, h, ht]
  · intro alt rest h ht
    simp [hcb, h, ht]

/-- The provider state right after `__init__` plus `set_callbacks`, as
`UnivoxSTTService.__init__` produces it. -/
def sinkReadyState : State :=
  set_callbacks (initialState none)

/-- A vendor event with one alternative carrying the text "hello", no
language tags, and a false finality flag. -/
def helloResult : LiveResultResponse :=
  { channel := { alternatives := [{ transcript := "hello", languages := [] }] }
    is_final := false }

/-- Witness for C3: the "hello" interim event is routed to `on_interim`. -/
theorem on_message_routing_witness :
    sinkReadyState.callbacks = true ∧
      on_message (fun _ => none) sinkReadyState helloResult =
        [Action.onInterim (eventOf (fun _ => none) helloResult
          { transcript := "hello", languages := [] })] := by
  refine ⟨rfl, ?_⟩
  have h := (on_message_routing (fun _ => none) sinkReadyState helloResult rfl).2
    { transcript := "hello", languages := [] } [] rfl (by decide)
  simpa using h

/-- Claim C4: when opening the vendor connection fails and a callback sink is
registered, `_connect` emits the connection-open attempt followed by exactly
one `on_error` report on the sink, and leaves the provider without an active
connection. The embedded `connect` is a total function whose failure branch
performs no raise: the only effects on that path are the recorded actions. -/
theorem connect_failure_reports_error (s : State) (hcb : s.callbacks = true) :
    (connect false s).2 =
      [Action.sdkStart s.settings,
        Action.onError "Deepgram connection failed. Check API key and network."] ∧
      connectionActive (connect false s).1 = false := by
  unfold connect connectionActive
  simp [hcb]

/-- Witness for C4 on a fresh provider with callbacks registered. -/
theorem connect_failure_reports_error_witness :
    sinkReadyState.callbacks = true ∧
      ((connect false sinkReadyState).2 =
        [Action.sdkStart sinkReadyState.settings,
          Action.onError "Deepgram connection failed. Check API key and network."] ∧
        connectionActive (connect false sinkReadyState).1 = false) :=
  ⟨rfl, connect_failure_reports_error sinkReadyState rfl⟩

/-- Claim C5: for every byte buffer, `send_audio` with no active connection
(no handle, or a handle that is not connected) changes nothing and performs no
action at all — in particular no SDK send and no raise. -/
theorem send_audio_disconnected_noop (s : State) (audio : List Nat)
    (h : connectionActive s = false) :
    send_audio s audio = (s, []) := by
  unfold send_audio
  simp [h]

/-- Witness for C5 on a provider that was never started. -/
theorem send_audio_disconnected_noop_witness :
    connectionActive (initialState none) = false ∧
      send_audio (initialState none) [0, 1, 2] = (initialState none, []) :=
  ⟨rfl, send_audio_disconnected_noop (initialState none) [0, 1, 2] rfl⟩

/-- Counterexample to C6 as stated: after a failed `start`, the provider is
not connected (`connectionActive` is false), yet `finalize_utterance` still
issues the flush control message, because the code checks only
`self._connection is None` and the failed `_connect` left the handle set. -/
theorem finalize_disconnected_sends_counterexample :
    connectionActive (start false 16000 sinkReadyState).1 = false ∧
      (finalize_utterance (start false 16000 sinkReadyState).1).2 =
        [Action.sdkFinalize] := by
  constructor <;> rfl

/-- Claim C6 (amended): `finalize_utterance` sends the flush-current-utterance
control message if and only if a connection handle exists (`self._connection`
is not `None`), even when that handle is not connected; with no handle it is a
no-op. -/
theorem finalize_iff_handle_present (s : State) :
    (finalize_utterance s).2 =
        (if s.connection.isSome then [Action.sdkFinalize] else []) ∧
      (finalize_utterance s).1 = s := by
  unfold finalize_utterance
  cases h : s.connection <;> simp

end DeepgramProvider

namespace CobraVADAnalyzer

/-- Decode a raw byte buffer as little-endian signed 16-bit PCM samples; a
trailing odd byte decodes to nothing (it is unreachable, since the caller
rejects odd lengths). -/
def toInt16Samples : List Nat → List Int
  | [] => []
  | [_] => []
  | lo :: hi :: rest =>
    let v : Nat := lo % 256 + 256 * (hi % 256)
    (if v < 32768 then (v : Int) else (v : Int) - 65536) :: toInt16Samples rest

/-- `np.frombuffer(buffer, dtype=np.int16)` (cobra.py line 92): raises — here
`Except.error` — when the byte length is not a multiple of the two-byte
element size, otherwise yields the decoded sample vector. -/
def frombufferInt16 (buffer : List Nat) : Except Unit (List Int) :=
  if buffer.length % 2 = 0 then Except.ok (toInt16Samples buffer)
  else Except.error ()

/-- The clamp of `voice_confidence` (cobra.py lines 96-99). -/
def clamp01 (q : Rat) : Rat :=
  if q < 0 then 0 else if q > 1 then 1 else q

/-- `voice_confidence` (cobra.py lines 89-103): decode the buffer, run the
Cobra probability model once (`process`, with `Except.error` standing for any
exception it raises), clamp into the unit interval; the surrounding
`try/except` turns every failure into the return value 0. -/
def voice_confidence (process : List Int → Except Unit Rat)
    (buffer : List Nat) : Rat :=
  match frombufferInt16 buffer with
  | Except.error _ => 0
  | Except.ok pcm =>
    match process pcm with
    | Except.error _ => 0
    | Except.ok prob => clamp01 prob

theorem clamp01_bounds (q : Rat) : 0 ≤ clamp01 q ∧ clamp01 q ≤ 1 := by
  unfold clamp01
  split
  · exact ⟨le_refl 0, by norm_num⟩
  · split
    · exact ⟨by norm_num, le_refl 1⟩
    · rename_i h1 h2
      exact ⟨not_lt.mp h1, not_lt.mp h2⟩

/-- Claim C7: for every input buffer and every behaviour of the underlying
probability model — including malformed buffers and model failures —
`voice_confidence` returns a value in the closed unit interval, and on any
internal failure (undecodable buffer, or a model call that raises) it returns
exactly 0. The embedding is total: the `try/except` leaves no raising path. -/
theorem voice_confidence_bounds (process : List Int → Except Unit Rat)
    (buffer : List Nat) :
    (0 ≤ voice_confidence process buffer ∧
        voice_confidence process buffer ≤ 1) ∧
      (frombufferInt16 buffer = Except.error () →
        voice_confidence process buffer = 0) ∧
      (∀ pcm, frombufferInt16 buffer = Except.ok pcm →
        process pcm = Except.error () → voice_confidence process buffer = 0) := by
  refine ⟨?_, ?_, ?_⟩
  · unfold voice_confidence
    split
    · norm_num
    · split
      · norm_num
      · exact clamp01_bounds _
  · intro hf
    simp [voice_confidence, hf]
  · intro pcm hf hp
    simp [voice_confidence, hf, hp]

/-- Witness for C7 on an odd-length (malformed) buffer and a model that would
report a confidence of 2. -/
theorem voice_confidence_bounds_witness :
    (0 ≤ voice_confidence (fun _ => Except.ok (2 : Rat)) [0, 0, 0] ∧
        voice_confidence (fun _ => Except.ok (2 : Rat)) [0, 0, 0] ≤ 1) ∧
      voice_confidence (fun _ => Except.ok (2 : Rat)) [0, 0, 0] = 0 := by
  have h := voice_confidence_bounds (fun _ => Except.ok (2 : Rat)) [0, 0, 0]
  exact ⟨h.1, h.2.1 rfl⟩

end CobraVADAnalyzer

namespace UnivoxSTTService

/-- The pipeline frame kinds `process_frame` discriminates on. -/
inductive Frame where
  | userStartedSpeaking
  | userStoppedSpeaking
  | other (tag : String)
deriving DecidableEq

/-- Observable effects of the service on provider and pipeline: a call into
the provider's `finalize_utterance`, and an `ErrorFrame` pushed downstream. -/
inductive SAction where
  | callFinalize
  | pushErrorFrame (msg : String)
deriving DecidableEq

/-- True exactly on provider-finalize calls. -/
def SAction.isCallFinalize : SAction → Bool
  | SAction.callFinalize => true
  | _ => false

/-- `process_frame` (service.py lines 95-106): a user-started-speaking frame
does nothing; a user-stopped-speaking frame calls the provider's
`finalize_utterance` inside `try/except` — `finalize` is that call's outcome,
`Except.error e` when it raises with message `e`, in which case an
`ErrorFrame` is pushed and nothing is re-raised; other frames only go through
the base class. -/
def process_frame (finalize : Except String Unit) (frame : Frame) :
    List SAction :=
  match frame with
  | Frame.userStartedSpeaking => []
  | Frame.userStoppedSpeaking =>
    match finalize with
    | Except.ok _ => [SAction.callFinalize]
    | Except.error e =>
      [SAction.callFinalize,
        SAction.pushErrorFrame ("Univox finalize error: " ++ e)]
  | Frame.other _ => []

/-- Sequential processing of a frame stream by the service. -/
def process_frames (finalize : Except String Unit) (frames : List Frame) :
    List SAction :=
  match frames with
  | [] => []
  | f :: rest => process_frame finalize f ++ process_frames finalize rest

/-- Claim C8: a user-stopped-speaking frame makes the service call the
provider's `finalize_utterance` exactly once; when that call raises, the
exception becomes one pipeline `ErrorFrame` and is not re-raised (the
embedding returns normally), so processing continues with the subsequent
frames of the stream. -/
theorem stopped_speaking_finalizes_once (finalize : Except String Unit)
    (rest : List Frame) :
    (process_frame finalize Frame.userStoppedSpeaking).countP
        SAction.isCallFinalize = 1 ∧
      (∀ e, finalize = Except.error e →
        process_frame finalize Frame.userStoppedSpeaking =
          [SAction.callFinalize,
            SAction.pushErrorFrame ("Univox finalize error: " ++ e)]) ∧
      process_frames finalize (Frame.userStoppedSpeaking :: rest) =
        process_frame finalize Frame.userStoppedSpeaking ++
          process_frames finalize rest := by
  refine ⟨?_, ?_, rfl⟩
  · cases finalize <;>
      simp [process_frame, List.countP_cons, SAction.isCallFinalize]
  · intro e he
    subst he
    rfl

/-- Witness for C8 with a provider whose finalize raises "boom", followed by
one more frame. -/
theorem stopped_speaking_finalizes_once_witness :
    (process_frame (Except.error "boom") Frame.userStoppedSpeaking).countP
        SAction.isCallFinalize = 1 ∧
      process_frame (Except.error "boom") Frame.userStoppedSpeaking =
        [SAction.callFinalize,
          SAction.pushErrorFrame ("Univox finalize error: " ++ "boom")] ∧
      process_frames (Except.error "boom")
          [Frame.userStoppedSpeaking, Frame.other "audio"] =
        process_frame (Except.error "boom") Frame.userStoppedSpeaking ++
          process_frames (Except.error "boom") [Frame.other "audio"] := by
  have h := stopped_speaking_finalizes_once (Except.error "boom")
    [Frame.other "audio"]
  exact ⟨h.1, h.2.1 "boom" rfl, h.2.2⟩

end UnivoxSTTService

/-- The VAD analyzer object `create_vad` can return. -/
inductive VadBackend where
  | silero
  | cobra
deriving DecidableEq

/-- The environment variables `create_vad` consults; `none` models an unset
variable (for which `os.getenv(...) or ""` yields the empty string). -/
structure Env where
  vad_backend : Option String
  picovoice_access_key : Option String
deriving DecidableEq

/-- `CobraVADAnalyzer.__init__` up to and including the credential check
(cobra.py lines 47-58): re-raise when the optional `pvcobra` module is
missing; raise `ValueError` when the access key is empty or absent; otherwise
construction proceeds to load the Cobra runtime. -/
def cobraConstruct (pvcobraAvailable : Bool) (access_key : String) :
    Except String Unit :=
  if pvcobraAvailable = false then Except.error "No module named pvcobra"
  else if access_key = "" then
    Except.error "CobraVADAnalyzer requires a Picovoice access key"
  else Except.ok ()

/-- Python `str.lower()` restricted to ASCII case mapping, as applied to the
backend selector string. -/
def lowercase (s : String) : String :=
  String.mk (s.data.map Char.toLower)

/-- `create_vad` (basic_vad_pipecat.py lines 79-102): read the backend
selector (default "silero", lowercased); on "cobra", construct the Cobra
analyzer but catch any exception and fall through to the Silero block; the
Silero block returns the Silero analyzer, or `none` when its import fails.
The `Except` layer carries whatever the function would propagate to its
caller; both branches catch their construction failures. -/
def create_vad (env : Env) (pvcobraAvailable sileroAvailable : Bool) :
    Except String (Option VadBackend) :=
  let backend := lowercase (env.vad_backend.getD "silero")
  let sileroBlock : Option VadBackend :=
    if sileroAvailable then some VadBackend.silero else none
  if backend = "cobra" then
    match cobraConstruct pvcobraAvailable (env.picovoice_access_key.getD "") with
    | Except.ok _ => Except.ok (some VadBackend.cobra)
    | Except.error _ => Except.ok sileroBlock
  else Except.ok sileroBlock

/-- Counterexample to C9 as stated: with the Cobra backend explicitly
selected and the Cobra credential absent, `create_vad` does not propagate the
constructor's error — even though the constructor does raise — but returns
the Silero backend: the construction is degraded, not fatal. -/
theorem create_vad_cobra_missing_key_not_fatal_counterexample :
    cobraConstruct true "" =
        Except.error "CobraVADAnalyzer requires a Picovoice access key" ∧
      create_vad { vad_backend := some "cobra", picovoice_access_key := none }
          true true =
        Except.ok (some VadBackend.silero) := by
  constructor <;> rfl

/-- Claim C9 (amended): when the Cobra backend is explicitly selected and the
credential is absent, the `CobraVADAnalyzer` constructor itself raises, but
`create_vad` catches the failure and silently falls back to the default
(Silero) backend rather than propagating a fatal error; when Cobra is not
explicitly selected, the Cobra credential is never consulted and the default
(Silero) backend is used. -/
theorem create_vad_cobra_fallback (env : Env) (si : Bool) :
    (lowercase (env.vad_backend.getD "silero") = "cobra" →
      env.picovoice_access_key.getD "" = "" →
      create_vad env true si =
        Except.ok (if si then some VadBackend.silero else none)) ∧
      (lowercase (env.vad_backend.getD "silero") ≠ "cobra" →
        ∀ pv, create_vad env pv si =
          Except.ok (if si then some VadBackend.silero else none)) ∧
      cobraConstruct true "" =
        Except.error "CobraVADAnalyzer requires a Picovoice access key" := by
  refine ⟨?_, ?_, rfl⟩
  · intro hsel hkey
    unfold create_vad
    simp [hsel, hkey, cobraConstruct]
  · intro hsel pv
    unfold create_vad
    simp [hsel]

/-- Witness for C9 (amended) with the selector set to "cobra" and the
credential unset. -/
theorem create_vad_cobra_fallback_witness :
    lowercase (({ vad_backend := some "cobra", picovoice_access_key := none } :
        Env).vad_backend.getD "silero") = "cobra" ∧
      ({ vad_backend := some "cobra", picovoice_access_key := none } :
        Env).picovoice_access_key.getD "" = "" ∧
      create_vad { vad_backend := some "cobra", picovoice_access_key := none }
          true true =
        Except.ok (if true then some VadBackend.silero else none) := by
  refine ⟨rfl, rfl, ?_⟩
  exact (create_vad_cobra_fallback
    { vad_backend := some "cobra", picovoice_access_key := none } true).1 rfl rfl

end Univox
